import Mathlib

/-!
Verification of the Script Runner coordination core.

This file gives a shallow embedding of the three components the claims are
about, translated from the repository source:

* `ScriptRunner` (src/services/script_runner.py): the runner's attribute
  record becomes `RunnerState`; `start` / `stop` / `resume` become pure
  functions on that record, and the worker thread's terminal paths
  (normal script exit at lines 263-292, the exception path at 285-289,
  and the simulation endings) become explicit `finish*` functions.
  Environment facts the Python code reads from the OS (whether a path
  exists, whether the child process is still alive, the child's return
  code, the lines it streamed) are passed in as parameters.
* `StateManager` (src/utils/state_manager.py): the `_state` dict becomes
  an association list, `set` / `update` become functions returning the
  new manager together with the list of observer invocations performed
  and the list of events published.
* `EventBus` (src/utils/event_bus.py): `publish` dispatches to a list of
  callbacks; a callback is modelled by an id plus a flag saying whether
  it raises, and the per-callback try/except of the source is the match
  in `dispatchAll` that continues in both branches.

Fallible Python methods (`start`, `resume`) return the state as left at
the point of the raise together with an `Option String` carrying the
raised message, mirroring that their guards run before any mutation.
-/

/-- Kind of worker thread launched by `ScriptRunner.start` (lines 68-80 of
script_runner.py): a real-script worker or the simulation fallback. -/
inductive WorkerKind where
  | real (path : String) (args : List String) (resumeFlag : Bool)
  | simulation
deriving DecidableEq, Repr

/-- The mutable attributes of the Python `ScriptRunner` object
(`__init__`, lines 26-38).  `worker` stands for a live worker thread
(`current_thread` while alive), `has_process` for `current_process`
being attached. -/
structure RunnerState where
  is_running : Bool
  worker : Option WorkerKind
  has_process : Bool
  output_queue : List (String × String)
  stop_requested : Bool
  developer_mode : Bool
  last_exit_code : Option Int
  script_succeeded : Option Bool
  is_paused : Bool
  pause_state : Option String
  paused_script_path : Option String
  paused_script_args : List String
deriving DecidableEq, Repr

/-- A freshly constructed `ScriptRunner()`. -/
def initialRunner : RunnerState :=
  { is_running := false
    worker := none
    has_process := false
    output_queue := []
    stop_requested := false
    developer_mode := false
    last_exit_code := none
    script_succeeded := none
    is_paused := false
    pause_state := none
    paused_script_path := none
    paused_script_args := [] }

/-- Python truthiness of an optional string: `None` and `""` are falsy.
Used for `if script_path and os.path.exists(script_path)` and for
`not self.paused_script_path`. -/
def pyTruthyPath : Option String → Bool
  | none => false
  | some p => !p.isEmpty

/-- Model of `ScriptRunner.start` (lines 40-82).  `pathExists` models
`os.path.exists`.  Returns the state as left by the method together with
`some message` when the method raised (`RuntimeError` at line 51, before
any mutation) and `none` when it returned normally having launched one
worker thread. -/
def ScriptRunner.start (s : RunnerState) (script_path : Option String)
    (args : Option (List String)) (developer_mode : Bool) (resumeFlag : Bool)
    (pathExists : String → Bool) : RunnerState × Option String :=
  if s.is_running then (s, some "Script is already running")
  else
    let s1 := { s with is_running := true, stop_requested := false,
                       developer_mode := developer_mode, is_paused := false }
    let s2 := if resumeFlag then s1
              else { s1 with last_exit_code := none, script_succeeded := none,
                             pause_state := none }
    let s3 := { s2 with paused_script_path := script_path,
                        paused_script_args := args.getD [] }
    let w := match script_path with
      | some p => if !p.isEmpty && pathExists p
                  then WorkerKind.real p (args.getD []) resumeFlag
                  else WorkerKind.simulation
      | none => WorkerKind.simulation
    ({ s3 with worker := some w }, none)

/-- Model of `ScriptRunner.stop` (lines 84-108).  The whole body is guarded by
`if self.is_running`.  `procAlive` models `current_process.poll() is None`
and `termRaises` whether `terminate()`/`kill()` threw (the except branch
at lines 98-99 only appends an error line to the queue).  The final
`join` only waits for the thread and changes no attribute. -/
def ScriptRunner.stop (s : RunnerState) (procAlive : Bool)
    (termRaises : Bool) : RunnerState :=
  if s.is_running then
    let s1 := { s with stop_requested := true }
    let s2 := if s1.has_process && procAlive && termRaises
              then { s1 with output_queue :=
                       s1.output_queue ++ [("error", "Error stopping process")] }
              else s1
    { s2 with last_exit_code := some (-1), script_succeeded := some false,
              is_running := false }
  else s

/-- Terminal effects of the worker thread's normal path through
`_run_script` (lines 204-292 without an exception): the streamed,
level-parsed output lines are `streamed`; `rc` is the child's return
code; `pauseFileExists` models the `.divvy_state.pkl` check at line 274.
The reserved pause exit code checked at line 267 is `-99`. -/
def ScriptRunner.finishScript (s : RunnerState) (script_path : String)
    (rc : Int) (streamed : List (String × String))
    (pauseFileExists : Bool) : RunnerState :=
  let s1 := { s with output_queue := s.output_queue ++ streamed,
                     last_exit_code := some rc }
  let s2 :=
    if rc = -99 then
      let sp := { s1 with is_paused := true, script_succeeded := none,
                          output_queue := s1.output_queue ++
                            [("system", "Script paused for user review")] }
      if pauseFileExists
      then { sp with pause_state := some (script_path ++ "/.divvy_state.pkl") }
      else sp
    else
      { s1 with is_paused := false,
                script_succeeded := some (decide (rc = 0)),
                output_queue := s1.output_queue ++
                  [if rc = 0 then ("system", "Script completed successfully")
                   else ("error", "Script exited with code")] }
  { s2 with is_running := false, has_process := false, worker := none }

/-- The exception path of `_run_script` (lines 285-292). -/
def ScriptRunner.finishScriptError (s : RunnerState) (msg : String) :
    RunnerState :=
  { s with output_queue := s.output_queue ++ [("error", msg)],
           last_exit_code := some 1, script_succeeded := some false,
           is_paused := false, is_running := false, has_process := false,
           worker := none }

/-- The distinguishable endings of `_run_simulation` (lines 293-400):
completing all operations (lines 385-393), breaking out on a stop
request (lines 354-358), raising (lines 395-398), or a stop request
arriving after the last checkpoint so that neither branch writes the
exit fields (`lateStop`). -/
inductive SimOutcome where
  | success
  | stoppedMidway
  | errored
  | lateStop
deriving DecidableEq, Repr

/-- Terminal effects of the worker thread running `_run_simulation`. -/
def ScriptRunner.finishSimulation (s : RunnerState) (o : SimOutcome)
    (streamed : List (String × String)) : RunnerState :=
  let s1 := { s with output_queue := s.output_queue ++ streamed }
  let s2 := match o with
    | .success => { s1 with last_exit_code := some 0,
                            script_succeeded := some true }
    | .stoppedMidway => { s1 with last_exit_code := some (-1),
                                  script_succeeded := some false }
    | .errored => { s1 with last_exit_code := some 1,
                            script_succeeded := some false }
    | .lateStop => s1
  { s2 with is_running := false, worker := none }

/-- Model of `ScriptRunner.resume` (lines 110-121): raises when no pause is
active (guard at line 112, Python truthiness on `paused_script_path`),
otherwise delegates to `start` with `resume=True`. -/
def ScriptRunner.resume (s : RunnerState) (pathExists : String → Bool) :
    RunnerState × Option String :=
  if !s.is_paused || !(pyTruthyPath s.paused_script_path) then
    (s, some "No script is paused")
  else
    ScriptRunner.start s s.paused_script_path (some s.paused_script_args)
      s.developer_mode true pathExists

/-- Model of `get_last_exit_code` (lines 160-166). -/
def RunnerState.get_last_exit_code (s : RunnerState) : Option Int :=
  s.last_exit_code

/-- Model of `did_script_succeed` (lines 168-174). -/
def RunnerState.did_script_succeed (s : RunnerState) : Option Bool :=
  s.script_succeeded

/-- Model of `is_script_paused` (lines 411-413). -/
def RunnerState.is_script_paused (s : RunnerState) : Bool :=
  s.is_paused

/-- An observer / event-subscriber callback, abstracted to an identity
and whether invoking it raises an exception. -/
structure Callback where
  id : Nat
  raisesExc : Bool
deriving DecidableEq, Repr

/-- Invoking one callback: an exceptional or normal return. -/
def runCallback (cb : Callback) : Except Unit Unit :=
  if cb.raisesExc then Except.error () else Except.ok ()

/-- The dispatch loop shared by `EventBus.publish` (lines 65-69 of
event_bus.py) and `StateManager._notify_observers` (lines 182-186 of
state_manager.py): each callback is called inside try/except, so the
loop continues past a raising callback instead of propagating.  Returns
the ids invoked, in order, and the exception that escaped the loop
(`none`: the except clause swallows every callback exception). -/
def dispatchAll : List Callback → List Nat × Option Unit
  | [] => ([], none)
  | cb :: rest =>
    let r := dispatchAll rest
    match runCallback cb with
    | Except.ok _ => (cb.id :: r.1, r.2)
    | Except.error _ => (cb.id :: r.1, r.2)

/-- Association-list lookup standing for Python `dict` access by key. -/
def alistFind? {α : Type} : List (String × α) → String → Option α
  | [], _ => none
  | (k', v) :: rest, k => if k' = k then some v else alistFind? rest k

/-- The `EventBus` object: its `_subscribers` dict. -/
structure EventBus where
  _subscribers : List (String × List Callback)
deriving DecidableEq, Repr

/-- Subscribers registered for an event name (empty when the name is
absent). -/
def EventBus.subscribersOf (bus : EventBus) (event_name : String) :
    List Callback :=
  (alistFind? bus._subscribers event_name).getD []

/-- Model of `EventBus.publish` (lines 54-69): when the event has subscribers,
every currently-registered callback is called in order, each inside
try/except.  Returns invoked callback ids and the propagated
exception. -/
def EventBus.publish (bus : EventBus) (event_name : String) :
    List Nat × Option Unit :=
  match alistFind? bus._subscribers event_name with
  | none => ([], none)
  | some cbs => dispatchAll cbs

/-- A state value as stored by `StateManager`: Python `None`, a string,
a bool or an int. -/
inductive Value where
  | none
  | str (s : String)
  | bool (b : Bool)
  | int (n : Int)
deriving DecidableEq, Repr

/-- Numeric view of a value, reflecting that Python `bool` is an `int`
(`True == 1`, `False == 0`). -/
def Value.numQ : Value → Option Int
  | .int n => some n
  | .bool b => some (if b then 1 else 0)
  | _ => Option.none

/-- Python `==` on stored values: numeric values compare by value
(bool/int coercion), everything else structurally. -/
def pyEq (a b : Value) : Bool :=
  match a.numQ, b.numQ with
  | some x, some y => decide (x = y)
  | _, _ => decide (a = b)

/-- Model of `self._state.get(key)`: the stored value, Python `None` when the key
is absent. -/
def lookupV : List (String × Value) → String → Value
  | [], _ => Value.none
  | (k', v) :: rest, k => if k' = k then v else lookupV rest k

/-- Model of `self._state[key] = value` on the insertion-ordered dict. -/
def dictSet : List (String × Value) → String → Value →
    List (String × Value)
  | [], k, v => [(k, v)]
  | (k', v') :: rest, k, v =>
    if k' = k then (k, v) :: rest else (k', v') :: dictSet rest k v

/-- The `StateManager` object: its `_state` dict and per-key `_observers`
dict (the other attributes play no part in `set`/`update`). -/
structure StateManager where
  _state : List (String × Value)
  _observers : List (String × List Callback)
deriving DecidableEq, Repr

/-- Observers registered for a key (empty when the key is absent). -/
def StateManager.observersOf (sm : StateManager) (key : String) :
    List Callback :=
  (alistFind? sm._observers key).getD []

/-- An observer invocation record: which callback was called, for which
key, with which value. -/
abbrev ObsCall := Nat × String × Value

/-- Model of `StateManager._notify_observers` (lines 171-186): when the key has
observers, each is called with the new value inside try/except.  Returns
the invocation records and the propagated exception. -/
def StateManager.notify_observers (sm : StateManager) (key : String)
    (value : Value) : List ObsCall × Option Unit :=
  match alistFind? sm._observers key with
  | none => ([], none)
  | some cbs =>
    let r := dispatchAll cbs
    (r.1.map (fun i => (i, key, value)), r.2)

/-- Events published on the bus by `StateManager.set`/`update`. -/
inductive Event where
  | stateChanged (key : String) (value old : Value)
  | batchUpdate (keys : List String) (updates : List (String × Value))
deriving DecidableEq, Repr

/-- Result of a `set`/`update` call: the manager afterwards, the observer
invocations performed, and the events published. -/
structure SetResult where
  state : StateManager
  invocations : List ObsCall
  events : List Event
deriving DecidableEq, Repr

/-- Model of `StateManager.set` (lines 67-93): change-only write with observer
notification and a `state.changed` event. -/
def StateManager.set (sm : StateManager) (key : String) (value : Value)
    (notify : Bool) : SetResult :=
  let old := lookupV sm._state key
  if !pyEq old value then
    let sm' := { sm with _state := dictSet sm._state key value }
    if notify then
      { state := sm',
        invocations := (sm'.notify_observers key value).1,
        events := [Event.stateChanged key value old] }
    else { state := sm', invocations := [], events := [] }
  else { state := sm, invocations := [], events := [] }

/-- The write loop of `StateManager.update` (lines 102-107): collect the
changed keys in order and apply `set(key, value, notify=False)` to
each. -/
def updateLoop : List (String × Value) → List (String × Value) →
    List (String × Value) × List String
  | st, [] => (st, [])
  | st, (k, v) :: rest =>
    if !pyEq (lookupV st k) v then
      let r := updateLoop (dictSet st k v) rest
      (r.1, k :: r.2)
    else updateLoop st rest

/-- The notification loop of `StateManager.update` (lines 111-112):
`_notify_observers(key, self._state[key], ...)` for each changed key. -/
def StateManager.notifyChangedKeys (sm : StateManager) :
    List String → List ObsCall
  | [] => []
  | k :: ks =>
    (sm.notify_observers k (lookupV sm._state k)).1 ++
      sm.notifyChangedKeys ks

/-- Model of `StateManager.update` (lines 95-118): batch change-only writes, then
per-changed-key notification and one `state.batch_update` event, only
when `notify` and at least one key changed. -/
def StateManager.update (sm : StateManager)
    (updates : List (String × Value)) (notify : Bool) : SetResult :=
  let r := updateLoop sm._state updates
  let sm' := { sm with _state := r.1 }
  if notify && !r.2.isEmpty then
    { state := sm',
      invocations := sm'.notifyChangedKeys r.2,
      events := [Event.batchUpdate r.2
        (r.2.map (fun k => (k, lookupV sm'._state k)))] }
  else { state := sm', invocations := [], events := [] }

/-- The key/value pairs of a batch whose new value differs (Python `!=`)
from the value currently stored — the claim-side description of the
keys `update` treats as changed. -/
def changedPairs (sm : StateManager) (updates : List (String × Value)) :
    List (String × Value) :=
  updates.filter (fun kv => !pyEq (lookupV sm._state kv.1) kv.2)

/-- Claim-side description of the invocations `update` performs: for each
changed pair in batch order, every observer of that key called once with
the pair's new value. -/
def invocationsSpec (sm : StateManager) :
    List (String × Value) → List ObsCall
  | [] => []
  | (k, v) :: rest =>
    ((sm.observersOf k).map (fun cb => (cb.id, k, v))) ++
      invocationsSpec sm rest

/-- One step of the runner's lifecycle, at the granularity of the public
operations and the worker thread's terminal paths.  Worker steps require
a live worker of the matching kind; `spawn` models the worker attaching
`current_process` (line 221). -/
inductive RStep : RunnerState → RunnerState → Prop where
  | startStep (s : RunnerState) (sp : Option String)
      (args : Option (List String)) (dev rf : Bool) (pe : String → Bool) :
      RStep s (ScriptRunner.start s sp args dev rf pe).1
  | stopStep (s : RunnerState) (pa tr : Bool) :
      RStep s (ScriptRunner.stop s pa tr)
  | resumeStep (s : RunnerState) (pe : String → Bool) :
      RStep s (ScriptRunner.resume s pe).1
  | spawnStep (s : RunnerState) (p : String) (a : List String) (r : Bool)
      (h : s.worker = some (WorkerKind.real p a r)) :
      RStep s { s with has_process := true }
  | finishScriptStep (s : RunnerState) (p : String) (a : List String)
      (r : Bool) (rc : Int) (streamed : List (String × String)) (pf : Bool)
      (h : s.worker = some (WorkerKind.real p a r)) :
      RStep s (ScriptRunner.finishScript s p rc streamed pf)
  | finishErrorStep (s : RunnerState) (p : String) (a : List String)
      (r : Bool) (msg : String)
      (h : s.worker = some (WorkerKind.real p a r)) :
      RStep s (ScriptRunner.finishScriptError s msg)
  | finishSimStep (s : RunnerState) (o : SimOutcome)
      (streamed : List (String × String))
      (h : s.worker = some WorkerKind.simulation) :
      RStep s (ScriptRunner.finishSimulation s o streamed)

/-- Runner states reachable from a freshly constructed runner by the
lifecycle steps. -/
inductive RunnerReachable : RunnerState → Prop where
  | init : RunnerReachable initialRunner
  | step {s t : RunnerState} : RunnerReachable s → RStep s t →
      RunnerReachable t

/-- A runner mid-run: a fresh runner after `start(None)` launched the
simulation worker. -/
def runningSimRunner : RunnerState :=
  (ScriptRunner.start initialRunner none none false false (fun _ => false)).1

/-- A runner mid-run on an existing real script. -/
def runningRealRunner : RunnerState :=
  (ScriptRunner.start initialRunner (some "/tmp/job.py") (some ["--x"])
    false false (fun _ => true)).1

/-- A runner whose real script just exited with code 0. -/
def completedZeroRunner : RunnerState :=
  ScriptRunner.finishScript runningRealRunner "/tmp/job.py" 0 [] false

/-- A runner whose real script just exited with the reserved pause
code. -/
def pausedRunner : RunnerState :=
  ScriptRunner.finishScript runningRealRunner "/tmp/job.py" (-99) [] false

/-- A state manager whose `theme` key holds `"dark"`, with one observer
on that key. -/
def smTheme : StateManager :=
  { _state := [("theme", Value.str "dark")],
    _observers := [("theme", [{ id := 1, raisesExc := false }])] }

/-- A state manager with `a = 1` and `b = 2`, one observer each. -/
def smAB : StateManager :=
  { _state := [("a", Value.int 1), ("b", Value.int 2)],
    _observers := [("a", [{ id := 1, raisesExc := false }]),
                   ("b", [{ id := 2, raisesExc := false }])] }

theorem dispatchAll_spec : ∀ cbs : List Callback,
    dispatchAll cbs = (cbs.map Callback.id, none)
  | [] => rfl
  | cb :: rest => by
    have ih := dispatchAll_spec rest
    unfold dispatchAll
    cases runCallback cb <;> simp [ih]

theorem notify_observers_spec (sm : StateManager) (k : String) (v : Value) :
    sm.notify_observers k v =
      ((sm.observersOf k).map (fun cb => (cb.id, k, v)), none) := by
  unfold StateManager.notify_observers StateManager.observersOf
  cases h : alistFind? sm._observers k <;>
    simp [h, dispatchAll_spec, Function.comp]

theorem pyEq_refl (v : Value) : pyEq v v = true := by
  cases v <;> simp [pyEq, Value.numQ]

theorem lookupV_dictSet_self (d : List (String × Value)) (k : String)
    (v : Value) : lookupV (dictSet d k v) k = v := by
  induction d with
  | nil => simp [dictSet, lookupV]
  | cons kv rest ih =>
    obtain ⟨k', v'⟩ := kv
    by_cases h : k' = k <;> simp [dictSet, lookupV, h, ih]

theorem lookupV_dictSet_ne (d : List (String × Value)) (k k₂ : String)
    (v : Value) (h : k ≠ k₂) :
    lookupV (dictSet d k v) k₂ = lookupV d k₂ := by
  induction d with
  | nil => simp [dictSet, lookupV, h]
  | cons kv rest ih =>
    obtain ⟨k', v'⟩ := kv
    by_cases h' : k' = k
    · subst h'
      simp [dictSet, lookupV, h]
    · simp [dictSet, lookupV, h']
      by_cases h₂ : k' = k₂ <;> simp [h₂, ih]

theorem finishScript_pause (s : RunnerState) (p : String)
    (st : List (String × String)) (pf : Bool) :
    (ScriptRunner.finishScript s p (-99) st pf).is_paused = true ∧
    (ScriptRunner.finishScript s p (-99) st pf).script_succeeded = none ∧
    (ScriptRunner.finishScript s p (-99) st pf).last_exit_code = some (-99) ∧
    (ScriptRunner.finishScript s p (-99) st pf).is_running = false ∧
    (ScriptRunner.finishScript s p (-99) st pf).paused_script_path =
      s.paused_script_path ∧
    (ScriptRunner.finishScript s p (-99) st pf).paused_script_args =
      s.paused_script_args ∧
    (ScriptRunner.finishScript s p (-99) st pf).developer_mode =
      s.developer_mode := by
  cases pf <;> simp [ScriptRunner.finishScript]

theorem finishScript_normal (s : RunnerState) (p : String) (rc : Int)
    (st : List (String × String)) (pf : Bool) (h : rc ≠ -99) :
    (ScriptRunner.finishScript s p rc st pf).is_paused = false ∧
    (ScriptRunner.finishScript s p rc st pf).last_exit_code = some rc ∧
    (ScriptRunner.finishScript s p rc st pf).script_succeeded =
      some (decide (rc = 0)) ∧
    (ScriptRunner.finishScript s p rc st pf).is_running = false := by
  simp [ScriptRunner.finishScript, h]

theorem start_ok_core (s : RunnerState) (sp : Option String)
    (a : Option (List String)) (d rf : Bool) (pe : String → Bool)
    (h : s.is_running = false) :
    (ScriptRunner.start s sp a d rf pe).2 = none ∧
    (ScriptRunner.start s sp a d rf pe).1.is_running = true ∧
    (ScriptRunner.start s sp a d rf pe).1.is_paused = false := by
  cases rf <;> simp [ScriptRunner.start, h]

theorem start_resume_keeps (s : RunnerState) (sp : Option String)
    (a : Option (List String)) (d : Bool) (pe : String → Bool)
    (h : s.is_running = false) :
    (ScriptRunner.start s sp a d true pe).1.last_exit_code =
      s.last_exit_code ∧
    (ScriptRunner.start s sp a d true pe).1.script_succeeded =
      s.script_succeeded := by
  simp [ScriptRunner.start, h]

theorem resume_unfold (s : RunnerState) (pe : String → Bool)
    (h1 : s.is_paused = true)
    (h2 : pyTruthyPath s.paused_script_path = true) :
    ScriptRunner.resume s pe =
      ScriptRunner.start s s.paused_script_path (some s.paused_script_args)
        s.developer_mode true pe := by
  simp [ScriptRunner.resume, h1, h2]

theorem start_preserves_not_both (s : RunnerState) (sp : Option String)
    (a : Option (List String)) (d r : Bool) (pe : String → Bool)
    (hs : ¬(s.is_running = true ∧ s.is_paused = true)) :
    ¬((ScriptRunner.start s sp a d r pe).1.is_running = true ∧
      (ScriptRunner.start s sp a d r pe).1.is_paused = true) := by
  cases hrun : s.is_running with
  | true => simpa [ScriptRunner.start, hrun] using hs
  | false => cases r <;> simp [ScriptRunner.start, hrun]

theorem rstep_preserves_flags {s t : RunnerState} (hst : RStep s t)
    (hs : ¬(s.is_running = true ∧ s.is_paused = true)) :
    ¬(t.is_running = true ∧ t.is_paused = true) := by
  cases hst with
  | startStep sp args dev rf pe =>
    exact start_preserves_not_both s sp args dev rf pe hs
  | stopStep pa tr =>
    cases hrun : s.is_running with
    | true => simp [ScriptRunner.stop, hrun]
    | false => simp [ScriptRunner.stop, hrun]
  | resumeStep pe =>
    cases hg : (!s.is_paused || !(pyTruthyPath s.paused_script_path)) with
    | true => simpa [ScriptRunner.resume, hg] using hs
    | false =>
      simp only [ScriptRunner.resume, hg, Bool.false_eq_true, if_false]
      exact start_preserves_not_both s _ _ _ _ pe hs
  | spawnStep p a r h => simpa using hs
  | finishScriptStep p a r rc streamed pf h =>
    simp [ScriptRunner.finishScript]
  | finishErrorStep p a r msg h =>
    simp [ScriptRunner.finishScriptError]
  | finishSimStep o streamed h =>
    simp [ScriptRunner.finishSimulation]

/-- C4: calling `start()` while a run is active raises the
`RuntimeError` of line 51 before any mutation, so the runner state —
including all status fields and the launched-worker record — is exactly
the state before the call, and no second worker is started. -/
theorem c4_start_while_running (s : RunnerState) (sp : Option String)
    (a : Option (List String)) (d rf : Bool) (pe : String → Bool)
    (h : s.is_running = true) :
    ScriptRunner.start s sp a d rf pe =
      (s, some "Script is already running") := by
  simp [ScriptRunner.start, h]

theorem c4_witness :
    runningRealRunner.is_running = true ∧
    ScriptRunner.start runningRealRunner (some "/tmp/other.py") none true
        false (fun _ => true) =
      (runningRealRunner, some "Script is already running") :=
  ⟨by decide,
   c4_start_while_running runningRealRunner (some "/tmp/other.py") none true
     false (fun _ => true) (by decide)⟩

/-- C10: `stop()` called while `is_running` is false is a complete
no-op — the entire body of `stop` (lines 86-108) sits under
`if self.is_running`, so every field, including `last_exit_code` and the
output queue, is left unchanged. -/
theorem c10_stop_noop (s : RunnerState) (pa tr : Bool)
    (h : s.is_running = false) : ScriptRunner.stop s pa tr = s := by
  simp [ScriptRunner.stop, h]

theorem c10_witness :
    completedZeroRunner.is_running = false ∧
    ScriptRunner.stop completedZeroRunner false false =
      completedZeroRunner :=
  ⟨by decide, c10_stop_noop completedZeroRunner false false (by decide)⟩

/-- C1 (counterexample): when the run has already finished with exit
code 0 just before `stop()` is called, `stop` is a no-op (its body is
guarded by `if self.is_running`), so afterwards `last_exit_code` is
still `0` and `did_script_succeed()` still `True` — the race is resolved
in favor of the recorded result, not of "user stopped" as the claim
states. -/
theorem c1_counterexample :
    completedZeroRunner.is_running = false ∧
    ScriptRunner.stop completedZeroRunner true false =
      completedZeroRunner ∧
    (ScriptRunner.stop completedZeroRunner true false).get_last_exit_code =
      some 0 ∧
    (ScriptRunner.stop completedZeroRunner true false).did_script_succeed =
      some true ∧
    ¬((ScriptRunner.stop completedZeroRunner true false).get_last_exit_code =
        some (-1) ∧
      (ScriptRunner.stop completedZeroRunner true false).did_script_succeed =
        some false) := by decide

/-- C1 (amended): after `stop()` called while `is_running` is true,
`is_running = False`, `last_exit_code = -1` and
`did_script_succeed() = False`; if the run had already concluded
(`is_running` false), `stop()` is a no-op and the previously recorded
outcome is retained. -/
theorem c1_amended_stop_finalizes (s : RunnerState) (pa tr : Bool)
    (h : s.is_running = true) :
    (ScriptRunner.stop s pa tr).is_running = false ∧
    (ScriptRunner.stop s pa tr).get_last_exit_code = some (-1) ∧
    (ScriptRunner.stop s pa tr).did_script_succeed = some false := by
  simp [ScriptRunner.stop, h, RunnerState.get_last_exit_code,
        RunnerState.did_script_succeed]

theorem c1_witness :
    runningSimRunner.is_running = true ∧
    ((ScriptRunner.stop runningSimRunner true false).is_running = false ∧
     (ScriptRunner.stop runningSimRunner true false).get_last_exit_code =
       some (-1) ∧
     (ScriptRunner.stop runningSimRunner true false).did_script_succeed =
       some false) :=
  ⟨by decide, c1_amended_stop_finalizes runningSimRunner true false (by decide)⟩

/-- C5 (counterexample): `start()` called with a non-None script path
that does not exist raises nothing — the branch at lines 75-80 silently
launches the in-process simulation worker instead, contradicting the
claim that the call fails fast and never silently runs something
else. -/
theorem c5_counterexample :
    (ScriptRunner.start initialRunner (some "/no/such/script.py") none
        false false (fun _ => false)).2 = none ∧
    (ScriptRunner.start initialRunner (some "/no/such/script.py") none
        false false (fun _ => false)).1.worker =
      some WorkerKind.simulation ∧
    (ScriptRunner.start initialRunner (some "/no/such/script.py") none
        false false (fun _ => false)).1.is_running = true := by decide

/-- C5 (amended): `start()` with a script path that does not exist on
disk (and no run in progress) does not raise: it falls back to the
simulation worker (`# Run simulation if no valid script path`,
line 76).  Only the already-running check raises. -/
theorem c5_amended_missing_path_runs_simulation (s : RunnerState)
    (p : String) (a : Option (List String)) (d rf : Bool)
    (pe : String → Bool) (h : s.is_running = false) (hp : pe p = false) :
    (ScriptRunner.start s (some p) a d rf pe).2 = none ∧
    (ScriptRunner.start s (some p) a d rf pe).1.worker =
      some WorkerKind.simulation := by
  cases rf <;> simp [ScriptRunner.start, h, hp]

theorem c5_witness :
    initialRunner.is_running = false ∧
    (fun _ => false : String → Bool) "/gone.py" = false ∧
    ((ScriptRunner.start initialRunner (some "/gone.py") none true false
        (fun _ => false)).2 = none ∧
     (ScriptRunner.start initialRunner (some "/gone.py") none true false
        (fun _ => false)).1.worker = some WorkerKind.simulation) :=
  ⟨rfl, rfl,
   c5_amended_missing_path_runs_simulation initialRunner "/gone.py" none
     true false (fun _ => false) rfl rfl⟩

/-- C3 (counterexample): while a run is paused for review,
`get_last_exit_code()` is not `None`: line 264 stores the child's
return code before the pause check, so the paused state reports the
pause code `-99` (only `did_script_succeed()` is `None` as claimed). -/
theorem c3_counterexample :
    pausedRunner.is_script_paused = true ∧
    pausedRunner.did_script_succeed = none ∧
    pausedRunner.get_last_exit_code = some (-99) ∧
    ¬(pausedRunner.get_last_exit_code = none) := by decide

/-- C3 (amended): `did_script_succeed()` is `None` while a run is
active or paused.  `get_last_exit_code()` is `None` while a fresh
(non-resume) run is active; while paused it returns the reserved pause
code `-99`, and a resumed run starts with that code still in place
(`start(resume=True)` skips the reset at lines 59-62). -/
theorem c3_amended_none_only_for_fresh_runs (s : RunnerState)
    (sp : Option String) (a : Option (List String)) (d : Bool)
    (pe : String → Bool) (p : String) (st : List (String × String))
    (pf : Bool) :
    (s.is_running = false →
      (ScriptRunner.start s sp a d false pe).1.get_last_exit_code = none ∧
      (ScriptRunner.start s sp a d false pe).1.did_script_succeed = none) ∧
    ((ScriptRunner.finishScript s p (-99) st pf).did_script_succeed =
        none ∧
     (ScriptRunner.finishScript s p (-99) st pf).is_script_paused = true ∧
     (ScriptRunner.finishScript s p (-99) st pf).get_last_exit_code =
        some (-99)) ∧
    (s.is_running = false →
      (ScriptRunner.start s sp a d true pe).1.get_last_exit_code =
        s.get_last_exit_code ∧
      (ScriptRunner.start s sp a d true pe).1.did_script_succeed =
        s.did_script_succeed) := by
  refine ⟨fun hr => ?_, ?_, fun hr => ?_⟩
  · simp [ScriptRunner.start, hr, RunnerState.get_last_exit_code,
          RunnerState.did_script_succeed]
  · have h := finishScript_pause s p st pf
    exact ⟨h.2.1, h.1, h.2.2.1⟩
  · have h := start_resume_keeps s sp a d pe hr
    exact ⟨h.1, h.2⟩

theorem c3_witness :
    ((ScriptRunner.finishScript pausedRunner "/tmp/job.py" (-99) []
        false).did_script_succeed = none ∧
     (ScriptRunner.finishScript pausedRunner "/tmp/job.py" (-99) []
        false).is_script_paused = true ∧
     (ScriptRunner.finishScript pausedRunner "/tmp/job.py" (-99) []
        false).get_last_exit_code = some (-99)) ∧
    pausedRunner.is_running = false ∧
    ((ScriptRunner.start pausedRunner (some "/tmp/job.py") none false true
        (fun _ => true)).1.get_last_exit_code =
       pausedRunner.get_last_exit_code ∧
     (ScriptRunner.start pausedRunner (some "/tmp/job.py") none false true
        (fun _ => true)).1.did_script_succeed =
       pausedRunner.did_script_succeed) :=
  ⟨(c3_amended_none_only_for_fresh_runs pausedRunner (some "/tmp/job.py")
      none false (fun _ => true) "/tmp/job.py" [] false).2.1,
   by decide,
   (c3_amended_none_only_for_fresh_runs pausedRunner (some "/tmp/job.py")
      none false (fun _ => true) "/tmp/job.py" [] false).2.2 (by decide)⟩

/-- C2: a run that exits with the reserved pause code `-99` leaves the
runner paused (`is_script_paused() = True`, `did_script_succeed() =
None`); `resume()` then raises nothing and relaunches, and when the
resumed run exits with a real code `rc ≠ -99` the terminal status
reports `rc` (and success iff `rc = 0`), not the original pause
code. -/
theorem c2_pause_round_trip (s paused resumed finished : RunnerState)
    (p q : String) (rc : Int) (st1 st2 : List (String × String))
    (pf1 pf2 : Bool) (pe : String → Bool)
    (hpath : s.paused_script_path = some q) (hq : q.isEmpty = false)
    (hrc : rc ≠ -99)
    (hpaused : paused = ScriptRunner.finishScript s p (-99) st1 pf1)
    (hres : resumed = (ScriptRunner.resume paused pe).1)
    (hfin : finished = ScriptRunner.finishScript resumed q rc st2 pf2) :
    paused.is_script_paused = true ∧
    paused.did_script_succeed = none ∧
    (ScriptRunner.resume paused pe).2 = none ∧
    resumed.is_running = true ∧
    finished.is_script_paused = false ∧
    finished.get_last_exit_code = some rc ∧
    finished.did_script_succeed = some (decide (rc = 0)) ∧
    finished.get_last_exit_code ≠ some (-99) := by
  subst hpaused hres hfin
  obtain ⟨hp1, hp2, hp3, hp4, hp5, hp6, hp7⟩ := finishScript_pause s p st1 pf1
  have htr : pyTruthyPath
      ((ScriptRunner.finishScript s p (-99) st1 pf1).paused_script_path) =
      true := by
    rw [hp5, hpath]
    simp [pyTruthyPath, hq]
  have hru := resume_unfold (ScriptRunner.finishScript s p (-99) st1 pf1)
    pe hp1 htr
  have hok := start_ok_core (ScriptRunner.finishScript s p (-99) st1 pf1)
    ((ScriptRunner.finishScript s p (-99) st1 pf1).paused_script_path)
    (some ((ScriptRunner.finishScript s p (-99) st1 pf1).paused_script_args))
    ((ScriptRunner.finishScript s p (-99) st1 pf1).developer_mode)
    true pe hp4
  obtain ⟨hf1, hf2, hf3, hf4⟩ := finishScript_normal
    (ScriptRunner.resume (ScriptRunner.finishScript s p (-99) st1 pf1) pe).1
    q rc st2 pf2 hrc
  refine ⟨hp1, hp2, ?_, ?_, hf1, hf2, hf3, ?_⟩
  · rw [hru]
    exact hok.1
  · rw [hru]
    exact hok.2.1
  · simp only [RunnerState.get_last_exit_code]
    rw [hf2]
    intro hcc
    exact hrc (Option.some.inj hcc)

theorem c2_witness :
    pausedRunner.is_script_paused = true ∧
    pausedRunner.did_script_succeed = none ∧
    (ScriptRunner.resume pausedRunner (fun _ => true)).2 = none ∧
    (ScriptRunner.resume pausedRunner (fun _ => true)).1.is_running =
      true ∧
    (ScriptRunner.finishScript
        (ScriptRunner.resume pausedRunner (fun _ => true)).1 "/tmp/job.py"
        0 [] false).is_script_paused = false ∧
    (ScriptRunner.finishScript
        (ScriptRunner.resume pausedRunner (fun _ => true)).1 "/tmp/job.py"
        0 [] false).get_last_exit_code = some 0 ∧
    (ScriptRunner.finishScript
        (ScriptRunner.resume pausedRunner (fun _ => true)).1 "/tmp/job.py"
        0 [] false).did_script_succeed = some (decide ((0 : Int) = 0)) ∧
    (ScriptRunner.finishScript
        (ScriptRunner.resume pausedRunner (fun _ => true)).1 "/tmp/job.py"
        0 [] false).get_last_exit_code ≠ some (-99) :=
  c2_pause_round_trip runningRealRunner pausedRunner
    (ScriptRunner.resume pausedRunner (fun _ => true)).1
    (ScriptRunner.finishScript
      (ScriptRunner.resume pausedRunner (fun _ => true)).1 "/tmp/job.py"
      0 [] false)
    "/tmp/job.py" "/tmp/job.py" 0 [] [] false false (fun _ => true)
    (by decide) (by decide) (by decide) rfl rfl rfl

/-- C9: in every state reachable from a freshly constructed runner by
the lifecycle steps — `start`, `stop`, `resume`, process attachment and
each worker-thread completion path (normal exit, pause exit, error,
simulation endings) — `is_running` and `is_paused` are never both
true. -/
theorem c9_running_paused_mutex (s : RunnerState)
    (h : RunnerReachable s) :
    ¬(s.is_running = true ∧ s.is_paused = true) := by
  induction h with
  | init => simp [initialRunner]
  | step hr hstep ih => exact rstep_preserves_flags hstep ih

theorem c9_witness :
    ¬(initialRunner.is_running = true ∧ initialRunner.is_paused = true) :=
  c9_running_paused_mutex initialRunner RunnerReachable.init

/-- C8: in both `EventBus.publish` and
`StateManager._notify_observers`, each callback runs inside its own
try/except, so every registered callback — including every one after a
raising callback — is invoked, and no exception propagates to the
publisher or to `set`'s caller (the propagated-exception component is
always `none`, for every subscriber list, raising or not). -/
theorem c8_subscriber_isolation :
    (∀ (bus : EventBus) (ev : String),
      EventBus.publish bus ev =
        ((bus.subscribersOf ev).map Callback.id, none)) ∧
    (∀ (sm : StateManager) (k : String) (v : Value),
      sm.notify_observers k v =
        ((sm.observersOf k).map (fun cb => (cb.id, k, v)), none)) := by
  constructor
  · intro bus ev
    unfold EventBus.publish EventBus.subscribersOf
    cases h : alistFind? bus._subscribers ev <;>
      simp [h, dispatchAll_spec]
  · intro sm k v
    exact notify_observers_spec sm k v

/-- C6 (counterexample): with `theme = "dark"` already stored and one
observer on `theme`, calling `set("theme", "dark")` twice invokes that
observer zero times and publishes zero events — not "exactly once"
as the universally quantified claim states (both calls hit the
change-only guard at line 78). -/
theorem c6_counterexample :
    (StateManager.set smTheme "theme" (Value.str "dark")
        true).invocations ++
      ((StateManager.set smTheme "theme" (Value.str "dark")
          true).state.set "theme" (Value.str "dark") true).invocations =
      [] ∧
    (StateManager.set smTheme "theme" (Value.str "dark") true).events ++
      ((StateManager.set smTheme "theme" (Value.str "dark")
          true).state.set "theme" (Value.str "dark") true).events = [] ∧
    smTheme.observersOf "theme" ≠ [] ∧
    ¬(((StateManager.set smTheme "theme" (Value.str "dark")
          true).invocations ++
        ((StateManager.set smTheme "theme" (Value.str "dark")
            true).state.set "theme" (Value.str "dark")
          true).invocations).length = 1 ∧
      ((StateManager.set smTheme "theme" (Value.str "dark") true).events ++
        ((StateManager.set smTheme "theme" (Value.str "dark")
            true).state.set "theme" (Value.str "dark")
          true).events).length = 1) := by decide

/-- C6 (amended): when the value written differs from the stored one,
`set(k, v)` followed by `set(k, v)` invokes each observer of `k`
exactly once and publishes exactly one `state.changed` event, all on
the first call; the second call is a complete no-op (no write, no
notification, no event).  When the value already equals the stored one,
both calls are no-ops. -/
theorem c6_amended_set_twice (sm : StateManager) (k : String) (v : Value)
    (h : pyEq (lookupV sm._state k) v = false) :
    ((sm.set k v true).state.set k v true).state = (sm.set k v true).state ∧
    ((sm.set k v true).state.set k v true).invocations = [] ∧
    ((sm.set k v true).state.set k v true).events = [] ∧
    (sm.set k v true).invocations =
      (sm.observersOf k).map (fun cb => (cb.id, k, v)) ∧
    (sm.set k v true).events =
      [Event.stateChanged k v (lookupV sm._state k)] := by
  have hset : lookupV (dictSet sm._state k v) k = v :=
    lookupV_dictSet_self sm._state k v
  refine ⟨?_, ?_, ?_, ?_, ?_⟩ <;>
    simp [StateManager.set, h, hset, pyEq_refl, notify_observers_spec,
          StateManager.observersOf]

theorem c6_witness :
    pyEq (lookupV smAB._state "a") (Value.int 5) = false ∧
    (((smAB.set "a" (Value.int 5) true).state.set "a" (Value.int 5)
        true).state = (smAB.set "a" (Value.int 5) true).state ∧
     ((smAB.set "a" (Value.int 5) true).state.set "a" (Value.int 5)
        true).invocations = [] ∧
     ((smAB.set "a" (Value.int 5) true).state.set "a" (Value.int 5)
        true).events = [] ∧
     (smAB.set "a" (Value.int 5) true).invocations =
       (smAB.observersOf "a").map (fun cb => (cb.id, "a", Value.int 5)) ∧
     (smAB.set "a" (Value.int 5) true).events =
       [Event.stateChanged "a" (Value.int 5) (lookupV smAB._state "a")]) :=
  ⟨by decide, c6_amended_set_twice smAB "a" (Value.int 5) (by decide)⟩

theorem updateLoop_spec (us : List (String × Value)) :
    ∀ (st st₀ : List (String × Value)),
      (∀ k, k ∈ us.map Prod.fst → lookupV st k = lookupV st₀ k) →
      (us.map Prod.fst).Nodup →
      (updateLoop st us).2 =
        (us.filter (fun kv => !pyEq (lookupV st₀ kv.1) kv.2)).map
          Prod.fst ∧
      (∀ k, k ∉ (us.filter
            (fun kv => !pyEq (lookupV st₀ kv.1) kv.2)).map Prod.fst →
        lookupV (updateLoop st us).1 k = lookupV st k) ∧
      (∀ kv, kv ∈ us.filter (fun kv => !pyEq (lookupV st₀ kv.1) kv.2) →
        lookupV (updateLoop st us).1 kv.1 = kv.2) := by
  induction us with
  | nil =>
    intro st st₀ hlk hnd
    exact ⟨rfl, fun k _ => rfl, fun kv hkv => absurd hkv (by simp)⟩
  | cons kv rest ih =>
    obtain ⟨k, v⟩ := kv
    intro st st₀ hlk hnd
    have hk0 : lookupV st k = lookupV st₀ k := hlk k (by simp)
    simp only [List.map_cons, List.nodup_cons] at hnd
    have hnd1 : k ∉ rest.map Prod.fst := hnd.1
    have hndr : (rest.map Prod.fst).Nodup := hnd.2
    cases hpe : pyEq (lookupV st₀ k) v with
    | false =>
      have hcond : (!pyEq (lookupV st k) v) = true := by
        rw [hk0, hpe]
        rfl
      have hlk' : ∀ k₂, k₂ ∈ rest.map Prod.fst →
          lookupV (dictSet st k v) k₂ = lookupV st₀ k₂ := by
        intro k₂ hk₂
        have hne : k ≠ k₂ := fun he => hnd1 (he ▸ hk₂)
        rw [lookupV_dictSet_ne st k k₂ v hne]
        exact hlk k₂ (by simp [hk₂])
      obtain ⟨ih1, ih2, ih3⟩ := ih (dictSet st k v) st₀ hlk' hndr
      have hloop : updateLoop st ((k, v) :: rest) =
          ((updateLoop (dictSet st k v) rest).1,
           k :: (updateLoop (dictSet st k v) rest).2) := by
        simp [updateLoop, hcond]
      have hfilter : ((k, v) :: rest).filter
          (fun kv => !pyEq (lookupV st₀ kv.1) kv.2) =
          (k, v) :: rest.filter
            (fun kv => !pyEq (lookupV st₀ kv.1) kv.2) := by
        simp [List.filter_cons, hpe]
      refine ⟨?_, ?_, ?_⟩
      · rw [hloop, hfilter]
        simp [ih1]
      · intro k₂ hk₂
        rw [hfilter] at hk₂
        simp only [List.map_cons, List.mem_cons, not_or] at hk₂
        obtain ⟨hne, hnotin⟩ := hk₂
        rw [hloop]
        show lookupV (updateLoop (dictSet st k v) rest).1 k₂ = lookupV st k₂
        rw [ih2 k₂ hnotin]
        exact lookupV_dictSet_ne st k k₂ v (fun he => hne he.symm)
      · intro kv₂ hkv₂
        rw [hfilter] at hkv₂
        rw [hloop]
        rcases List.mem_cons.mp hkv₂ with hh | ht
        · subst hh
          show lookupV (updateLoop (dictSet st k v) rest).1 k = v
          have hknotin : k ∉ (rest.filter
              (fun kv => !pyEq (lookupV st₀ kv.1) kv.2)).map Prod.fst := by
            intro hc
            apply hnd1
            obtain ⟨kv₃, hkv₃, hfst⟩ := List.mem_map.mp hc
            exact List.mem_map.mpr ⟨kv₃, (List.mem_filter.mp hkv₃).1, hfst⟩
          rw [ih2 k hknotin]
          exact lookupV_dictSet_self st k v
        · exact ih3 kv₂ ht
    | true =>
      have hcond : (!pyEq (lookupV st k) v) = false := by
        rw [hk0, hpe]
        rfl
      have hlk' : ∀ k₂, k₂ ∈ rest.map Prod.fst →
          lookupV st k₂ = lookupV st₀ k₂ :=
        fun k₂ hk₂ => hlk k₂ (by simp [hk₂])
      obtain ⟨ih1, ih2, ih3⟩ := ih st st₀ hlk' hndr
      have hloop : updateLoop st ((k, v) :: rest) = updateLoop st rest := by
        simp [updateLoop, hcond]
      have hfilter : ((k, v) :: rest).filter
          (fun kv => !pyEq (lookupV st₀ kv.1) kv.2) =
          rest.filter (fun kv => !pyEq (lookupV st₀ kv.1) kv.2) := by
        simp [List.filter_cons, hpe]
      refine ⟨?_, ?_, ?_⟩
      · rw [hloop, hfilter]
        exact ih1
      · intro k₂ hk₂
        rw [hfilter] at hk₂
        rw [hloop]
        exact ih2 k₂ hk₂
      · intro kv₂ hkv₂
        rw [hfilter] at hkv₂
        rw [hloop]
        exact ih3 kv₂ hkv₂

theorem notifyChangedKeys_spec (sm' sm : StateManager)
    (hobs : sm'._observers = sm._observers) :
    ∀ (l : List (String × Value)),
      (∀ kv, kv ∈ l → lookupV sm'._state kv.1 = kv.2) →
      sm'.notifyChangedKeys (l.map Prod.fst) = invocationsSpec sm l := by
  intro l
  induction l with
  | nil => intro _; rfl
  | cons kv rest ih =>
    intro h
    obtain ⟨k, v⟩ := kv
    have hv : lookupV sm'._state k = v := h (k, v) (by simp)
    have hobsk : sm'.observersOf k = sm.observersOf k := by
      unfold StateManager.observersOf
      rw [hobs]
    have hrec := ih (fun kv hkv => h kv (by simp [hkv]))
    simp only [List.map_cons, StateManager.notifyChangedKeys,
      invocationsSpec, notify_observers_spec, hv, hobsk, hrec]

theorem map_lookup_pairs (st' : List (String × Value)) :
    ∀ (l : List (String × Value)),
      (∀ kv, kv ∈ l → lookupV st' kv.1 = kv.2) →
      (l.map Prod.fst).map (fun k => (k, lookupV st' k)) = l := by
  intro l
  induction l with
  | nil => intro _; rfl
  | cons kv rest ih =>
    intro h
    obtain ⟨k, v⟩ := kv
    have hv : lookupV st' k = v := h (k, v) (by simp)
    simp only [List.map_cons, List.cons.injEq]
    exact ⟨by rw [hv], ih (fun kv hkv => h kv (by simp [hkv]))⟩

/-- C7 (counterexample): a batch none of whose values differ from the
stored ones publishes zero `state.batch_update` events — the publish at
line 115 sits under `if notify and changed_keys`, so "exactly one event
per update call" fails for change-free batches. -/
theorem c7_counterexample :
    (StateManager.update smTheme [("theme", Value.str "dark")]
        true).events = [] ∧
    ¬((StateManager.update smTheme [("theme", Value.str "dark")]
        true).events.length = 1) := by decide

/-- C7 (amended): for a batch `update(m, notify=True)` with distinct
keys, only the keys whose new value differs from the stored value are
written and notified — each changed key's observers are called once
with its new value, unchanged keys appear in no notification and keep
their stored value — and exactly one `state.batch_update` event listing
exactly the changed keys is published when at least one key changed (no
event when none did). -/
theorem c7_amended_batch (sm : StateManager)
    (updates : List (String × Value))
    (hnd : (updates.map Prod.fst).Nodup) :
    (sm.update updates true).invocations =
      invocationsSpec sm (changedPairs sm updates) ∧
    (sm.update updates true).events =
      (if changedPairs sm updates = [] then []
       else [Event.batchUpdate ((changedPairs sm updates).map Prod.fst)
               (changedPairs sm updates)]) ∧
    (∀ k, k ∉ (changedPairs sm updates).map Prod.fst →
      lookupV (sm.update updates true).state._state k =
        lookupV sm._state k) := by
  obtain ⟨h1, h2, h3⟩ := updateLoop_spec updates sm._state sm._state
    (fun _ _ => rfl) hnd
  have hfold : updates.filter
      (fun kv => !pyEq (lookupV sm._state kv.1) kv.2) =
      changedPairs sm updates := rfl
  rw [hfold] at h1 h2 h3
  cases hcp : changedPairs sm updates with
  | nil =>
    rw [hcp] at h1 h2
    refine ⟨?_, ?_, ?_⟩
    · simp [StateManager.update, h1, invocationsSpec, hcp]
    · simp [StateManager.update, h1, hcp]
    · intro k hk
      have hlu := h2 k (by simp)
      simpa [StateManager.update, h1] using hlu
  | cons c cs =>
    rw [hcp] at h1 h2 h3
    have hcond : (true && !(updateLoop sm._state updates).2.isEmpty) =
        true := by
      rw [h1]
      rfl
    have hsm'obs : ({ sm with
        _state := (updateLoop sm._state updates).1 } :
          StateManager)._observers = sm._observers := rfl
    have hinv := notifyChangedKeys_spec
      { sm with _state := (updateLoop sm._state updates).1 } sm hsm'obs
      (c :: cs) h3
    have hpairs := map_lookup_pairs (updateLoop sm._state updates).1
      (c :: cs) h3
    refine ⟨?_, ?_, ?_⟩
    · simp only [StateManager.update, hcond, if_true]
      rw [h1]
      exact hinv
    · simp only [StateManager.update, hcond, if_true]
      rw [h1, if_neg (List.cons_ne_nil c cs), hpairs]
    · intro k hk
      have hlu := h2 k hk
      simpa [StateManager.update, hcond] using hlu

theorem c7_witness :
    (([("a", Value.int 1), ("b", Value.int 3)].map Prod.fst).Nodup) ∧
    ((smAB.update [("a", Value.int 1), ("b", Value.int 3)]
        true).invocations =
      invocationsSpec smAB
        (changedPairs smAB [("a", Value.int 1), ("b", Value.int 3)])) ∧
    ((smAB.update [("a", Value.int 1), ("b", Value.int 3)] true).events =
      (if changedPairs smAB [("a", Value.int 1), ("b", Value.int 3)] = []
       then []
       else [Event.batchUpdate
              ((changedPairs smAB
                 [("a", Value.int 1), ("b", Value.int 3)]).map Prod.fst)
              (changedPairs smAB
                 [("a", Value.int 1), ("b", Value.int 3)])])) :=
  ⟨by decide,
   (c7_amended_batch smAB [("a", Value.int 1), ("b", Value.int 3)]
     (by decide)).1,
   (c7_amended_batch smAB [("a", Value.int 1), ("b", Value.int 3)]
     (by decide)).2.1⟩
